import Mathlib

/-!
Verification of the `TenantDropdown` component
(`src/modules/web/web-app/components/layouts/shared/LayoutHeader/TenantDropdown.tsx`).

The component is shallowly embedded as pure Lean functions:
* the fetched query data is an `Option (List Tenant)` (`useQuery(listTenants).data?.tenants`),
* the render of the component is a record of the observable parts of the JSX tree,
* the `useState` hook and the `useEffect` on `[tenant]` become a tiny state machine.
-/

namespace Meteroid

/-- Tenant record as consumed by the component: identifier, display name, and
the slug used to build the navigation path. -/
structure Tenant where
  id : String
  name : String
  slug : String
  deriving DecidableEq, Repr

/-- Embedding of JavaScript `a.localeCompare(b)` as used by the sort comparator.
`localeCompare` is a locale-dependent total preorder on strings; it is modelled
here by lexicographic string comparison (the claims depend only on the
comparator being a consistent total order). Returns a negative, zero, or
positive integer as in JS. -/
def localeCompare (a b : String) : Int :=
  if a < b then -1 else if b < a then 1 else 0

/-- The order the comparator `(a, b) => a.name.localeCompare(b.name)` sorts by:
`a` may stay before `b` when the comparator is non-positive. -/
def nameLe (a b : Tenant) : Prop :=
  localeCompare a.name b.name ≤ 0

instance : DecidableRel nameLe := fun a b =>
  inferInstanceAs (Decidable (localeCompare a.name b.name ≤ 0))

theorem localeCompare_le_zero {a b : String} : localeCompare a b ≤ 0 ↔ a ≤ b := by
  unfold localeCompare
  by_cases h1 : a < b
  · simp [h1, le_of_lt h1]
  · by_cases h2 : b < a
    · simp [h1, h2, not_le.mpr h2]
    · simp [h1, h2, not_lt.mp h2]

theorem localeCompare_neg {a b : String} : localeCompare a b < 0 ↔ a < b := by
  unfold localeCompare
  by_cases h1 : a < b
  · simp [h1]
  · by_cases h2 : b < a
    · simp [h1, h2]
    · simp [h1, h2]

theorem nameLe_iff {a b : Tenant} : nameLe a b ↔ a.name ≤ b.name :=
  localeCompare_le_zero

instance : IsTotal Tenant nameLe :=
  ⟨fun a b => by rw [nameLe_iff, nameLe_iff]; exact le_total a.name b.name⟩

instance : IsTrans Tenant nameLe :=
  ⟨fun _ _ _ hab hbc => by
    rw [nameLe_iff] at hab hbc ⊢
    exact le_trans hab hbc⟩

/-- `tenants.sort((a, b) => a.name.localeCompare(b.name))`: JS `Array.prototype.sort`
is a stable sort by the comparator (stable since ES2019); a stable sort under a
consistent comparator is insertion sort. -/
def sortTenants (ts : List Tenant) : List Tenant :=
  List.insertionSort nameLe ts

/-- The tenant collection as read from the query layer:
`useQuery(listTenants).data?.tenants ?? []`. -/
def fetchedTenants (queryData : Option (List Tenant)) : List Tenant :=
  queryData.getD []

/-- One rendered row of the dropdown list:
`<Link key={tenant.id} to={`/${org}/${tenant.slug}`}><CommandItem>{tenant.name}</CommandItem></Link>`. -/
structure TenantRow where
  key : String
  path : String
  label : String
  deriving DecidableEq, Repr

/-- The row rendered for one tenant record. -/
def tenantRow (org : String) (t : Tenant) : TenantRow :=
  { key := t.id
    path := "/" ++ org ++ "/" ++ t.slug
    label := t.name }

/-- Observable parts of the JSX tree returned by `TenantDropdown`:
the popover visibility, the trigger label (`tenant?.name`), the
`CommandEmpty` placeholder text, the `CommandList` rows, and the single
trailing `CommandItem` holding the new-tenant link. -/
structure Rendered where
  isOpen : Bool
  triggerLabel : String
  emptyText : String
  rows : List TenantRow
  newTenantPath : String
  newTenantLabel : String
  deriving DecidableEq, Repr

/-- The render function of the component, as a function of the query data,
the ambient active tenant (`useTenant()`), the organization slug
(`useOrganizationSlug()`), and the current value of the `open` flag. -/
def TenantDropdown (queryData : Option (List Tenant)) (tenant : Option Tenant)
    (org : String) (isOpen : Bool) : Rendered :=
  { isOpen := isOpen
    triggerLabel := (tenant.map Tenant.name).getD ""
    emptyText := "No tenant found."
    rows := (sortTenants (fetchedTenants queryData)).map (tenantRow org)
    newTenantPath := "/" ++ org ++ "/tenants/new"
    newTenantLabel := "New tenant" }

/-- State of the query-layer collection after one render. JS
`Array.prototype.sort` sorts in place, so when the query holds data the
cached array itself is reordered by the render; when it holds no data the
`?? []` fallback allocates a fresh array and the cache is untouched. -/
def tenantsAfterRender (queryData : Option (List Tenant)) : Option (List Tenant) :=
  queryData.map sortTenants

/-- Component-owned state: the single `useState(false)` hook. -/
structure ComponentState where
  isOpen : Bool
  deriving DecidableEq, Repr

/-- State on mount: `useState(false)` ignores the query data and the ambient
tenant. -/
def mountState (_queryData : Option (List Tenant)) (_tenant : Option Tenant) :
    ComponentState :=
  { isOpen := false }

/-- The `onOpenChange={setOpen}` handler of the popover. -/
def onOpenChange (b : Bool) (_s : ComponentState) : ComponentState :=
  { isOpen := b }

/-- The `useEffect(() => setOpen(false), [tenant])` hook: it runs (and closes
the popover) whenever the dependency `tenant` differs from its previous
value. -/
def tenantChangeEffect (prevTenant nextTenant : Option Tenant)
    (s : ComponentState) : ComponentState :=
  if nextTenant = prevTenant then s else { isOpen := false }

/-! Concrete tenants used by witnesses and counterexamples. -/

def tAlpha : Tenant := { id := "1", name := "alpha", slug := "a" }

def tBeta : Tenant := { id := "2", name := "beta", slug := "b" }

/-- C3: when the `listTenants` query has no data or an empty collection, the
component renders an empty row list and the generic `CommandEmpty` placeholder
text, and nothing in the rendered output carries error, retry, or other
failure messaging. -/
theorem empty_fetch_degrades_to_placeholder (queryData : Option (List Tenant))
    (tenant : Option Tenant) (org : String) (isOpen : Bool)
    (h : fetchedTenants queryData = []) :
    (TenantDropdown queryData tenant org isOpen).rows = [] ∧
    (TenantDropdown queryData tenant org isOpen).emptyText = "No tenant found." := by
  constructor
  · simp [TenantDropdown, h, sortTenants]
  · rfl

theorem empty_fetch_degrades_to_placeholder_witness :
    (TenantDropdown none none "acme" false).rows = [] ∧
    (TenantDropdown none none "acme" false).emptyText = "No tenant found." :=
  empty_fetch_degrades_to_placeholder none none "acme" false rfl

/-- C5: in every step of the state relation where the dependency `tenant`
differs from its previous value, the effect `setOpen(false)` runs and the
resulting open flag is `false`. -/
theorem tenant_change_closes_popover (prevTenant nextTenant : Option Tenant)
    (s : ComponentState) (h : nextTenant ≠ prevTenant) :
    (tenantChangeEffect prevTenant nextTenant s).isOpen = false := by
  simp [tenantChangeEffect, h]

theorem tenant_change_closes_popover_witness :
    (tenantChangeEffect none (some tAlpha) { isOpen := true }).isOpen = false :=
  tenant_change_closes_popover none (some tAlpha) { isOpen := true } (by decide)

/-- C7: the component owns no state beyond the single boolean popover flag:
a component state is fully determined by its `isOpen` value. -/
theorem state_is_exactly_open_flag (s s₂ : ComponentState)
    (h : s.isOpen = s₂.isOpen) : s = s₂ := by
  cases s
  cases s₂
  simpa using h

theorem state_is_exactly_open_flag_witness :
    ({ isOpen := true } : ComponentState) = { isOpen := true } :=
  state_is_exactly_open_flag { isOpen := true } { isOpen := true } rfl

/-- C8: on mount the `open` flag is initialized to `false` by `useState(false)`,
regardless of the fetched collection and the active tenant. -/
theorem mount_open_flag_false (queryData : Option (List Tenant))
    (tenant : Option Tenant) :
    (mountState queryData tenant).isOpen = false :=
  rfl

/-- C9: with no active tenant in the ambient context, the trigger still
renders (the render function is total) and displays the empty name
(`tenant?.name` renders nothing). -/
theorem absent_tenant_renders_empty_label (queryData : Option (List Tenant))
    (org : String) (isOpen : Bool) :
    (TenantDropdown queryData none org isOpen).triggerLabel = "" :=
  rfl

/-- C6: the rendered rows are exactly a permutation of the fetched collection,
one row per fetched tenant, built by `tenantRow` (keyed by the tenant id and
labeled with the tenant name). -/
theorem rows_are_permutation_of_fetched (queryData : Option (List Tenant))
    (tenant : Option Tenant) (org : String) (isOpen : Bool) :
    List.Perm (TenantDropdown queryData tenant org isOpen).rows
      ((fetchedTenants queryData).map (tenantRow org)) :=
  (List.perm_insertionSort nameLe (fetchedTenants queryData)).map (tenantRow org)

/-- C2: every fetched tenant gets a row whose link path is `/{org}/{slug}`,
and the component renders its single new-tenant link with path
`/{org}/tenants/new`. -/
theorem row_links_and_new_tenant_link (queryData : Option (List Tenant))
    (tenant : Option Tenant) (org : String) (isOpen : Bool) (t₂ : Tenant)
    (ht : t₂ ∈ fetchedTenants queryData) :
    (∃ r, r ∈ (TenantDropdown queryData tenant org isOpen).rows ∧
        r.key = t₂.id ∧ r.label = t₂.name ∧
        r.path = "/" ++ org ++ "/" ++ t₂.slug) ∧
    (TenantDropdown queryData tenant org isOpen).newTenantPath =
      "/" ++ org ++ "/tenants/new" := by
  refine ⟨⟨tenantRow org t₂, ?_, rfl, rfl, rfl⟩, rfl⟩
  exact List.mem_map_of_mem _ ((List.mem_insertionSort nameLe).mpr ht)

theorem row_links_and_new_tenant_link_witness :
    (∃ r, r ∈ (TenantDropdown (some [tAlpha]) none "acme" false).rows ∧
        r.key = tAlpha.id ∧ r.label = tAlpha.name ∧
        r.path = "/" ++ "acme" ++ "/" ++ tAlpha.slug) ∧
    (TenantDropdown (some [tAlpha]) none "acme" false).newTenantPath =
      "/" ++ "acme" ++ "/tenants/new" :=
  row_links_and_new_tenant_link (some [tAlpha]) none "acme" false tAlpha (by decide)

/-- C1: the rendered list is sorted ascending by display name: for any two
fetched tenants whose names compare strictly, the row of the smaller-named one
appears at a strictly earlier index. -/
theorem rows_sorted_ascending_by_name (queryData : Option (List Tenant))
    (tenant : Option Tenant) (org : String) (isOpen : Bool) (a c : Tenant)
    (ha : a ∈ fetchedTenants queryData) (hc : c ∈ fetchedTenants queryData)
    (hlt : localeCompare a.name c.name < 0) :
    ∃ (i j : Nat) (hi : i < (TenantDropdown queryData tenant org isOpen).rows.length)
      (hj : j < (TenantDropdown queryData tenant org isOpen).rows.length),
      i < j ∧
      (TenantDropdown queryData tenant org isOpen).rows.get ⟨i, hi⟩ = tenantRow org a ∧
      (TenantDropdown queryData tenant org isOpen).rows.get ⟨j, hj⟩ = tenantRow org c := by
  have hac : a.name < c.name := localeCompare_neg.mp hlt
  have hmem_a : a ∈ sortTenants (fetchedTenants queryData) := by
    simpa [sortTenants] using ha
  have hmem_c : c ∈ sortTenants (fetchedTenants queryData) := by
    simpa [sortTenants] using hc
  obtain ⟨i, hi, hgi⟩ := List.mem_iff_getElem.mp hmem_a
  obtain ⟨j, hj, hgj⟩ := List.mem_iff_getElem.mp hmem_c
  have hsorted : (sortTenants (fetchedTenants queryData)).Pairwise nameLe :=
    List.sorted_insertionSort nameLe (fetchedTenants queryData)
  have hij : i < j := by
    rcases lt_trichotomy i j with h | h | h
    · exact h
    · exfalso
      subst h
      have hone : a = c := by rw [← hgi, ← hgj]
      rw [hone] at hac
      exact lt_irrefl _ hac
    · exfalso
      have hcb := (List.pairwise_iff_getElem.mp hsorted) j i hj hi h
      rw [hgi, hgj] at hcb
      exact absurd (nameLe_iff.mp hcb) (not_le.mpr hac)
  have hleni : i < (TenantDropdown queryData tenant org isOpen).rows.length := by
    simpa [TenantDropdown] using hi
  have hlenj : j < (TenantDropdown queryData tenant org isOpen).rows.length := by
    simpa [TenantDropdown] using hj
  refine ⟨i, j, hleni, hlenj, hij, ?_, ?_⟩
  · simp only [TenantDropdown, List.get_eq_getElem, List.getElem_map]
    rw [hgi]
  · simp only [TenantDropdown, List.get_eq_getElem, List.getElem_map]
    rw [hgj]

theorem rows_sorted_ascending_by_name_witness :
    ∃ (i j : Nat)
      (hi : i < (TenantDropdown (some [tBeta, tAlpha]) none "acme" false).rows.length)
      (hj : j < (TenantDropdown (some [tBeta, tAlpha]) none "acme" false).rows.length),
      i < j ∧
      (TenantDropdown (some [tBeta, tAlpha]) none "acme" false).rows.get ⟨i, hi⟩ =
        tenantRow "acme" tAlpha ∧
      (TenantDropdown (some [tBeta, tAlpha]) none "acme" false).rows.get ⟨j, hj⟩ =
        tenantRow "acme" tBeta :=
  rows_sorted_ascending_by_name (some [tBeta, tAlpha]) none "acme" false tAlpha tBeta
    (by decide) (by decide)
    (by rw [localeCompare_neg, String.lt_iff_toList_lt]; decide)

/-- C4 counterexample: rendering does not leave the fetched collection
unchanged. JS `Array.prototype.sort` sorts the cached array in place, so a
fetched collection `[beta, alpha]` is `[alpha, beta]` after the render. -/
theorem render_mutates_cached_collection :
    tenantsAfterRender (some [tBeta, tAlpha]) ≠ some [tBeta, tAlpha] := by
  have hba : ¬ nameLe tBeta tAlpha := by
    rw [nameLe_iff, String.le_iff_toList_le]
    decide
  have hsort : sortTenants [tBeta, tAlpha] = [tAlpha, tBeta] := by
    simp [sortTenants, List.insertionSort, List.orderedInsert, hba]
  intro hcontra
  have hc₂ : some (sortTenants [tBeta, tAlpha]) = some [tBeta, tAlpha] := hcontra
  have hlist : [tAlpha, tBeta] = [tBeta, tAlpha] := by
    rw [← hsort]
    exact Option.some.inj hc₂
  have hhead : tAlpha = tBeta := by
    injection hlist with h₁ h₂
  exact absurd (congrArg Tenant.id hhead) (by decide)

/-- C4 amended: rendering leaves every tenant record and the multiset of
records of the cached collection unchanged, but reorders the collection in
place into ascending name order; when the query holds no data the cache is
untouched. -/
theorem render_sorts_cache_in_place (l : List Tenant) :
    (∃ l₂, tenantsAfterRender (some l) = some l₂ ∧
      List.Perm l₂ l ∧ List.Sorted nameLe l₂) ∧
    tenantsAfterRender none = none :=
  ⟨⟨sortTenants l, rfl, List.perm_insertionSort nameLe l,
    List.sorted_insertionSort nameLe l⟩, rfl⟩

/-- C10: the new-tenant item linking to `/{org}/tenants/new` is rendered for
every fetched collection, the empty one included. -/
theorem new_tenant_item_unconditional (queryData : Option (List Tenant))
    (tenant : Option Tenant) (org : String) (isOpen : Bool) :
    (TenantDropdown queryData tenant org isOpen).newTenantPath =
      "/" ++ org ++ "/tenants/new" ∧
    (TenantDropdown queryData tenant org isOpen).newTenantLabel = "New tenant" :=
  ⟨rfl, rfl⟩

end Meteroid
